import Mathlib

/-!
Shallow embedding of the workflow-state console in `src/ui_app.py`.

The Python program keeps its session in `st.session_state`; we model that
session record as the structure `WorkflowState`.  Python dictionaries read
with `.get(key)` are modelled with `Option` fields, Python JSON objects of
unknown shape (pipeline responses) with the inductive `Json`, and the
Python string helpers `str.strip`, `str.lower`, `in` and
`str.replace(",", " ")` with the character-list functions `pyStrip`,
`pyLower`, `pyIn` and `pyReplaceComma` below.  Fallible pipeline calls are
passed in as an `Except String` response value, mirroring the
`try/except` blocks around `api_post`.
-/

/-- A JSON value, the shape of opaque pipeline responses. -/
inductive Json where
  | null : Json
  | bool : Bool → Json
  | num : Int → Json
  | str : String → Json
  | arr : List Json → Json
  | obj : List (String × Json) → Json

/-- Models Python `str.lower()` (per-character lowering). -/
def pyLower (s : String) : String := String.mk (s.data.map Char.toLower)

/-- Models Python `str.strip()` (drop whitespace from both ends). -/
def pyStrip (s : String) : String :=
  String.mk (((s.data.dropWhile Char.isWhitespace).reverse.dropWhile Char.isWhitespace).reverse)

/-- Helper for `pyIn`: does `needle` occur as a contiguous sublist? -/
def listHasSub (needle : List Char) : List Char → Bool
  | [] => needle.isEmpty
  | c :: rest => needle.isPrefixOf (c :: rest) || listHasSub needle rest

/-- Models the Python substring test `needle in hay`. -/
def pyIn (needle hay : String) : Bool := listHasSub needle.data hay.data

/-- Models Python `.replace(",", " ")`: the pattern is a single character,
so the call maps every comma of the string to a space. -/
def pyReplaceComma (s : String) : String :=
  String.mk (s.data.map (fun c => if c = ',' then ' ' else c))

/-- A documentation source (`{"type": ..., "url": ..., "tags": [...]}`). -/
structure Source where
  type : String
  url : String
  tags : List String
deriving DecidableEq, Repr

/-- A requirement record; both keys are read with `.get`, so both are
optional. -/
structure Requirement where
  id : Option String
  statement : Option String
deriving DecidableEq, Repr

/-- The `product` sub-dictionary of the product pack. -/
structure ProductInfo where
  name : Option String
  vendor : Option String
  domain : Option String
  version : Option String
deriving DecidableEq, Repr

/-- The `business_rules` sub-dictionary of the product pack. -/
structure BusinessRules where
  rules_text : String
deriving DecidableEq, Repr

/-- The `output.jira` sub-dictionary of the product pack. -/
structure JiraOutput where
  project_key : Option String
  scenario_issue_type : Option String
  testcase_issue_type : Option String
deriving DecidableEq, Repr

/-- The `output` sub-dictionary of the product pack. -/
structure OutputConfig where
  hierarchy : String
  jira : JiraOutput
deriving DecidableEq, Repr

/-- The project configuration dictionary (`product_pack`, backend
`ProductPack`).  `requirements` is read via `pp.get("requirements")`, so it
is optional. -/
structure ProductPack where
  product : ProductInfo
  requirements : Option (List Requirement)
  business_rules : BusinessRules
  output : OutputConfig
deriving DecidableEq, Repr

/-- A test case; every field the console reads is accessed with `.get`,
so all are optional.  The display-only fields (`preconditions`, `steps`,
`expected_results`, `references`) are not read by any operation modelled
here and are omitted. -/
structure TestCase where
  tc_id : Option String
  title : Option String
  type : Option String
  priority : Option String
deriving DecidableEq, Repr

/-- A scenario of the artifact tree.  `test_cases` is read via
`s.get("test_cases")`, so a missing or null list is `none`.  The
display-only fields (`scope`, `assumptions`, `references`) are omitted. -/
structure Scenario where
  scenario_id : Option String
  title : Option String
  objective : Option String
  test_cases : Option (List TestCase)
deriving DecidableEq, Repr

/-- The artifact tree (`scenario_pack`, backend `ScenarioPack`): a
dictionary whose `scenarios` key may be absent (the initial value is the
empty dictionary `{}`, modelled as `scenarios := none`). -/
structure ScenarioPack where
  scenarios : Option (List Scenario)
deriving DecidableEq, Repr

/-- The session record `st.session_state` as initialised by `_init_state`. -/
structure WorkflowState where
  api_base : String
  project_name : String
  developer_mode : Bool
  step : String
  sources : List Source
  last_index_result : List (String × Json)
  jira_issue_key : String
  fetched_requirements : List Requirement
  requirements_last_fetched_at : Option String
  product_pack : ProductPack
  scenario_pack : ScenarioPack
  last_jira_result : List (String × Json)
  kb_ready : Bool

/-- `default_project_settings()` from the source. -/
def default_project_settings : ProductPack :=
  { product :=
      { name := some "RFID Scanner"
        vendor := some "Zebra"
        domain := some "Warehouse RFID"
        version := none }
    requirements := some []
    business_rules :=
      { rules_text :=
          "Unauthorized = EPC not in allowed inventory OR duplicate EPC detected.\nIf unauthorized: block transaction + raise alert.\nRFID retry count = 2.\nSLA: single-tag read <= 500ms.\n" }
    output :=
      { hierarchy := "Scenario->TestCase"
        jira :=
          { project_key := some "ABC"
            scenario_issue_type := some "Task"
            testcase_issue_type := some "Sub-task" } } }

/-- The defaults installed by `_init_state` (the environment override of
`api_base` is irrelevant to every claim; we use the documented default). -/
def init_state : WorkflowState :=
  { api_base := "http://localhost:8000"
    project_name := "rfid-warehouse"
    developer_mode := false
    step := "1) Connect Documentation"
    sources := []
    last_index_result := []
    jira_issue_key := ""
    fetched_requirements := []
    requirements_last_fetched_at := none
    product_pack := default_project_settings
    scenario_pack := { scenarios := none }
    last_jira_result := []
    kb_ready := false }

/-- `requirements_count(pp)`: `len(pp.get("requirements") or [])`. -/
def requirements_count (pp : ProductPack) : Nat :=
  (pp.requirements.getD []).length

/-- `scenario_list(sp)`: `sp.get("scenarios") or []` (the non-dictionary
guard of the source cannot fire in the typed model). -/
def scenario_list (sp : ScenarioPack) : List Scenario :=
  sp.scenarios.getD []

/-- `total_testcases(sp)`: the loop `total += len(s.get("test_cases") or [])`
over `scenario_list(sp)`. -/
def total_testcases (sp : ScenarioPack) : Nat :=
  (scenario_list sp).foldl (fun total s => total + (s.test_cases.getD []).length) 0

/-! ### Sidebar progress checklist (lines 196-201) -/

/-- `sources_ok = len(st.session_state.sources) > 0`. -/
def sources_ok (s : WorkflowState) : Bool := decide (0 < s.sources.length)

/-- `kb_ok = bool(st.session_state.last_index_result) or st.session_state.kb_ready`;
the truthiness of a dictionary is its non-emptiness. -/
def kb_ok (s : WorkflowState) : Bool := !s.last_index_result.isEmpty || s.kb_ready

/-- `jira_ok = bool((st.session_state.jira_issue_key or "").strip())`. -/
def jira_ok (s : WorkflowState) : Bool := pyStrip s.jira_issue_key != ""

/-- `req_ok = len(st.session_state.fetched_requirements) > 0`. -/
def req_ok (s : WorkflowState) : Bool := decide (0 < s.fetched_requirements.length)

/-- `sc_ok = len(scenario_list(st.session_state.scenario_pack)) > 0`. -/
def sc_ok (s : WorkflowState) : Bool := decide (0 < (scenario_list s.scenario_pack).length)

/-- `tc_ok = total_testcases(st.session_state.scenario_pack) > 0`. -/
def tc_ok (s : WorkflowState) : Bool := decide (0 < total_testcases s.scenario_pack)

/-! ### Draft persistence (lines 63-77 and the sidebar draft actions,
lines 219-256).  The draft store is the key-to-blob map the JSON files
under `DRAFT_DIR` realise. -/

/-- The serialized draft blob: exactly the eight keys the Save handler
writes (lines 245-254).  Every field is optional because the Load handler
reads each key with `data.get(key, default)`, tolerating older drafts. -/
structure Draft where
  sources : Option (List Source)
  last_index_result : Option (List (String × Json))
  jira_issue_key : Option String
  fetched_requirements : Option (List Requirement)
  product_pack : Option ProductPack
  scenario_pack : Option ScenarioPack
  last_jira_result : Option (List (String × Json))
  kb_ready : Option Bool

/-- The durable name-to-blob map behind `DRAFT_DIR`. -/
def DraftStore : Type := String → Option Draft

/-- The `state` dictionary the Save handler builds (lines 245-254): all
eight keys are present. -/
def draft_state (s : WorkflowState) : Draft :=
  { sources := some s.sources
    last_index_result := some s.last_index_result
    jira_issue_key := some s.jira_issue_key
    fetched_requirements := some s.fetched_requirements
    product_pack := some s.product_pack
    scenario_pack := some s.scenario_pack
    last_jira_result := some s.last_jira_result
    kb_ready := some s.kb_ready }

/-- `save_draft(name, state)`: writes the blob under the name,
overwriting silently. -/
def save_draft (store : DraftStore) (name : String) (d : Draft) : DraftStore :=
  fun n => if n == name then some d else store n

/-- `load_draft(filename)`: reads the blob under the name (`none` models
the missing-file error). -/
def load_draft (store : DraftStore) (name : String) : Option Draft :=
  store name

/-- The Load button handler (lines 220-229): restores the eight expected
fields from the draft with per-field fallbacks, leaving every other
session field untouched. -/
def restore_draft (s : WorkflowState) (d : Draft) : WorkflowState :=
  { s with
    sources := d.sources.getD []
    last_index_result := d.last_index_result.getD []
    jira_issue_key := d.jira_issue_key.getD ""
    fetched_requirements := d.fetched_requirements.getD []
    product_pack := d.product_pack.getD default_project_settings
    scenario_pack := d.scenario_pack.getD { scenarios := none }
    last_jira_result := d.last_jira_result.getD []
    kb_ready := d.kb_ready.getD false }

/-- The New button handler (lines 232-241): resets the same eight fields
to their defaults and touches nothing else. -/
def new_state (s : WorkflowState) : WorkflowState :=
  { s with
    sources := []
    last_index_result := []
    jira_issue_key := ""
    fetched_requirements := []
    product_pack := default_project_settings
    scenario_pack := { scenarios := none }
    last_jira_result := []
    kb_ready := false }

/-! ### Pipeline actions (Steps 1, 4, 5, 6).  Each handler wraps one
`api_post` call in `try/except`; the response is passed in as an
`Except String` value and the handler returns the next session state
together with the displayed error message, if any. -/

/-- The Build-knowledge-base handler (lines 362-370): on success stores
the response and sets `kb_ready = True`; on failure only displays the
error. -/
def build_kb (s : WorkflowState) (resp : Except String (List (String × Json))) :
    WorkflowState × Option String :=
  match resp with
  | .ok res => ({ s with last_index_result := res, kb_ready := true }, none)
  | .error e => (s, some e)

/-- The Create-scenarios handler (lines 569-585): on success replaces
`scenario_pack` with the response; on failure only displays the error. -/
def create_scenarios (s : WorkflowState) (resp : Except String ScenarioPack) :
    WorkflowState × Option String :=
  match resp with
  | .ok res => ({ s with scenario_pack := res }, none)
  | .error e => (s, some e)

/-- The Create-test-cases handler (lines 657-672): on success replaces
`scenario_pack` with the enriched response; on failure only displays the
error. -/
def create_testcases (s : WorkflowState) (resp : Except String ScenarioPack) :
    WorkflowState × Option String :=
  match resp with
  | .ok res => ({ s with scenario_pack := res }, none)
  | .error e => (s, some e)

/-- The Send-to-Jira handler (lines 821-834): on success stores the push
result; on failure only displays the error. -/
def push_to_jira (s : WorkflowState) (resp : Except String (List (String × Json))) :
    WorkflowState × Option String :=
  match resp with
  | .ok res => ({ s with last_jira_result := res }, none)
  | .error e => (s, some e)

/-! ### Step 2: applying fetched requirements -/

/-- The Use-these-requirements handler (lines 437-439) with the applied
list abstracted as a parameter:
`st.session_state.product_pack["requirements"] = requirements`.  The
handler is a single assignment with no validation and no failure path. -/
def apply_requirements (s : WorkflowState) (requirements : List Requirement) :
    WorkflowState :=
  { s with product_pack := { s.product_pack with requirements := some requirements } }

/-- The same handler with the source's actual argument,
`st.session_state.fetched_requirements`. -/
def use_fetched_requirements (s : WorkflowState) : WorkflowState :=
  apply_requirements s s.fetched_requirements

/-! ### Step 4: the generation gate and the scenario search loop -/

/-- `can_generate = bool(issue_key) or (req_in_use > 0)` where
`issue_key = (jira_issue_key or "").strip()` and
`req_in_use = requirements_count(product_pack)` (lines 549-567). -/
def can_generate (s : WorkflowState) : Bool :=
  pyStrip s.jira_issue_key != "" || decide (0 < requirements_count s.product_pack)

/-- The search blob of one scenario (lines 606-608):
`((s.get("title") or "") + " " + (s.get("objective") or "")).lower()`. -/
def scenario_blob (s : Scenario) : String :=
  pyLower ((s.title.getD "") ++ " " ++ (s.objective.getD ""))

/-- The Step 4 search loop (lines 604-611): a scenario is skipped exactly
when `search and search.lower() not in blob`. -/
def search_scenarios (sp : ScenarioPack) (search : String) : List Scenario :=
  (scenario_list sp).filter
    (fun s => !(search != "" && !pyIn (pyLower search) (scenario_blob s)))

/-- The search predicate the claim states, word for word: the match is
against the concatenation of `title` and `objective`, with no separator
between them.  Kept for comparison with `search_scenarios`. -/
def search_scenarios_as_claimed (sp : ScenarioPack) (search : String) : List Scenario :=
  (scenario_list sp).filter
    (fun s =>
      search == "" ||
        pyIn (pyLower search) (pyLower ((s.title.getD "") ++ (s.objective.getD ""))))

/-! ### Step 5: the test-case filter loop -/

/-- The Step 5 filter loop (lines 701-707): a test case is skipped when
`tc_type != "All" and tc.get("type") != tc_type`, or when
`q and q.lower() not in (tc.get("title") or "").lower()`. -/
def filter_testcases (tcs : List TestCase) (tc_type : String) (q : String) :
    List TestCase :=
  tcs.filter
    (fun tc =>
      !(tc_type != "All" && tc.type != some tc_type) &&
      !(q != "" && !pyIn (pyLower q) (pyLower (tc.title.getD ""))))

/-! ### Step 6: the flat CSV export (lines 777-791) -/

/-- One exported row, the six comma-sanitised columns of the flat CSV. -/
structure CsvRow where
  scenario_id : String
  scenario_title : String
  tc_id : String
  tc_title : String
  tc_type : String
  priority : String
deriving DecidableEq, Repr

/-- The row built for scenario `s` and test case `tc`: every column is
`(field or "").replace(",", " ")`. -/
def csv_row_of (s : Scenario) (tc : TestCase) : CsvRow :=
  { scenario_id := pyReplaceComma (s.scenario_id.getD "")
    scenario_title := pyReplaceComma (s.title.getD "")
    tc_id := pyReplaceComma (tc.tc_id.getD "")
    tc_title := pyReplaceComma (tc.title.getD "")
    tc_type := pyReplaceComma (tc.type.getD "")
    priority := pyReplaceComma (tc.priority.getD "")}

/-- The nested loop of the Create-flat-CSV handler: one row appended per
scenario and per test case of that scenario, in tree order. -/
def flatten_for_export (sp : ScenarioPack) : List CsvRow :=
  (scenario_list sp).foldr
    (fun s acc => ((s.test_cases.getD []).map (csv_row_of s)) ++ acc) []

/-- The emitted CSV lines: the fixed header followed by the joined rows. -/
def flat_csv_lines (sp : ScenarioPack) : List String :=
  "scenario_id,scenario_title,tc_id,tc_title,tc_type,priority" ::
    (flatten_for_export sp).map
      (fun r =>
        String.intercalate ","
          [r.scenario_id, r.scenario_title, r.tc_id, r.tc_title, r.tc_type, r.priority])

/-! ### Comma-freedom predicate for the CSV columns -/

/-- A string with no embedded comma. -/
def commaFree (x : String) : Prop := ∀ c ∈ x.data, c ≠ ','

/-- Every column of a CSV row is comma-free. -/
def rowCommaFree (r : CsvRow) : Prop :=
  commaFree r.scenario_id ∧ commaFree r.scenario_title ∧ commaFree r.tc_id ∧
    commaFree r.tc_title ∧ commaFree r.tc_type ∧ commaFree r.priority

/-! ### Concrete values used by witnesses and counterexamples -/

/-- A functional test case of the demo tree. -/
def demo_tc1 : TestCase :=
  { tc_id := some "TC-1", title := some "Read one tag", type := some "Functional",
    priority := some "P1" }

/-- A negative test case of the demo tree. -/
def demo_tc2 : TestCase :=
  { tc_id := some "TC-2", title := some "Duplicate EPC rejected", type := some "Negative",
    priority := some "P2" }

/-- A demo scenario with two test cases. -/
def demo_scenario1 : Scenario :=
  { scenario_id := some "SC-1", title := some "Single tag read",
    objective := some "read a tag", test_cases := some [demo_tc1, demo_tc2] }

/-- A demo scenario with a missing `test_cases` field. -/
def demo_scenario2 : Scenario :=
  { scenario_id := some "SC-2", title := some "Bulk read",
    objective := some "read many tags", test_cases := none }

/-- A demo scenario with an empty test-case list. -/
def demo_scenario3 : Scenario :=
  { scenario_id := some "SC-3", title := some "Alerting",
    objective := some "raise alerts", test_cases := some [] }

/-- A demo tree with three scenarios holding 2, 0 and 0 test cases. -/
def demo_pack : ScenarioPack :=
  { scenarios := some [demo_scenario1, demo_scenario2, demo_scenario3] }

/-- A demo documentation source. -/
def demo_source : Source :=
  { type := "web", url := "https://example.com/rfid-docs/getting-started",
    tags := ["sample"] }

/-- A demo session state carrying the demo tree. -/
def demo_state : WorkflowState :=
  { init_state with
    sources := [demo_source]
    jira_issue_key := "RFID-9"
    scenario_pack := demo_pack }

/-- A session state whose only change from the defaults is a linked Jira
issue; its applied requirement list is still empty. -/
def rfid_state : WorkflowState :=
  { init_state with jira_issue_key := "RFID-9" }

/-- A scenario whose title and objective abut at a word boundary. -/
def cex_scenario : Scenario :=
  { scenario_id := some "SC-X", title := some "a", objective := some "b",
    test_cases := none }

/-- A one-scenario tree for the search counterexample. -/
def cex_pack : ScenarioPack := { scenarios := some [cex_scenario] }

/-- A requirement record lacking a statement. -/
def bad_requirement : Requirement := { id := none, statement := none }

/-! ### Helper lemmas shared by the claim theorems -/

/-- A left fold that only adds equals the starting value plus the mapped sum. -/
theorem foldl_add_eq_sum {α : Type} (f : α → Nat) (l : List α) (n : Nat) :
    l.foldl (fun t s => t + f s) n = n + (l.map f).sum := by
  induction l generalizing n with
  | nil => simp
  | cons h t ih => simp [ih, Nat.add_assoc]

/-- `total_testcases` as a mapped sum over the scenario list. -/
theorem total_testcases_eq_sum (sp : ScenarioPack) :
    total_testcases sp =
      ((scenario_list sp).map (fun sc => (sc.test_cases.getD []).length)).sum := by
  simpa using foldl_add_eq_sum (fun sc => (sc.test_cases.getD []).length) (scenario_list sp) 0

/-- A right fold that appends block by block equals the flattened map. -/
theorem foldr_append_eq_flatten {α β : Type} (g : α → List β) (l : List α) :
    l.foldr (fun s acc => g s ++ acc) [] = (l.map g).flatten := by
  induction l with
  | nil => rfl
  | cons h t ih => simp [ih]

/-- `pyReplaceComma` leaves no comma in its output. -/
theorem commaFree_pyReplaceComma (x : String) : commaFree (pyReplaceComma x) := by
  intro c hc
  simp only [pyReplaceComma] at hc
  rcases List.mem_map.mp hc with ⟨c0, _, h0⟩
  by_cases h : c0 = ','
  · simp [h] at h0
    simp [← h0]
  · simp [h] at h0
    simp [← h0, h]

/-- Every column builder of `csv_row_of` yields comma-free text. -/
theorem rowCommaFree_csv_row_of (s : Scenario) (tc : TestCase) :
    rowCommaFree (csv_row_of s tc) :=
  ⟨commaFree_pyReplaceComma _, commaFree_pyReplaceComma _, commaFree_pyReplaceComma _,
    commaFree_pyReplaceComma _, commaFree_pyReplaceComma _, commaFree_pyReplaceComma _⟩

/-! ### C1: draft round-trip -/

/-- C1.  Saving a state under a name and loading that draft returns the
very blob that was saved, and restoring that blob into any session
reproduces the eight persistable fields of the saved state field for
field. -/
theorem draft_save_load_round_trip (store : DraftStore) (name : String)
    (s t : WorkflowState) :
    load_draft (save_draft store name (draft_state s)) name = some (draft_state s) ∧
    (restore_draft t (draft_state s)).sources = s.sources ∧
    (restore_draft t (draft_state s)).last_index_result = s.last_index_result ∧
    (restore_draft t (draft_state s)).jira_issue_key = s.jira_issue_key ∧
    (restore_draft t (draft_state s)).fetched_requirements = s.fetched_requirements ∧
    (restore_draft t (draft_state s)).product_pack = s.product_pack ∧
    (restore_draft t (draft_state s)).scenario_pack = s.scenario_pack ∧
    (restore_draft t (draft_state s)).last_jira_result = s.last_jira_result ∧
    (restore_draft t (draft_state s)).kb_ready = s.kb_ready := by
  refine ⟨?_, rfl, rfl, rfl, rfl, rfl, rfl, rfl, rfl⟩
  simp [load_draft, save_draft]

/-! ### C8: pipeline failures never mutate the state -/

/-- C8.  Every failed pipeline action returns the state unchanged and
only surfaces the error message; in particular the previously merged
artifacts survive untouched. -/
theorem pipeline_failure_no_mutation (s : WorkflowState) (e : String) :
    (build_kb s (Except.error e)).1 = s ∧
    (build_kb s (Except.error e)).2 = some e ∧
    (create_scenarios s (Except.error e)).1 = s ∧
    (create_scenarios s (Except.error e)).2 = some e ∧
    (create_testcases s (Except.error e)).1 = s ∧
    (create_testcases s (Except.error e)).2 = some e ∧
    (push_to_jira s (Except.error e)).1 = s ∧
    (push_to_jira s (Except.error e)).2 = some e ∧
    (create_scenarios s (Except.error e)).1.scenario_pack = s.scenario_pack ∧
    (create_testcases s (Except.error e)).1.scenario_pack = s.scenario_pack ∧
    (push_to_jira s (Except.error e)).1.last_jira_result = s.last_jira_result ∧
    (build_kb s (Except.error e)).1.last_index_result = s.last_index_result ∧
    (build_kb s (Except.error e)).1.kb_ready = s.kb_ready :=
  ⟨rfl, rfl, rfl, rfl, rfl, rfl, rfl, rfl, rfl, rfl, rfl, rfl, rfl⟩

/-! ### C10: the draft frame condition -/

/-- C10.  The persisted draft depends only on the eight persistable
fields, and neither loading a draft nor starting fresh ever changes
`project_name`, `api_base`, the selected step, `developer_mode` or
`requirements_last_fetched_at`. -/
theorem draft_frame_condition (s t : WorkflowState) (d : Draft)
    (pn ab stp : String) (dm : Bool) (ts : Option String) :
    draft_state
        { s with
          project_name := pn, api_base := ab, step := stp,
          developer_mode := dm, requirements_last_fetched_at := ts } =
      draft_state s ∧
    (restore_draft t d).project_name = t.project_name ∧
    (restore_draft t d).api_base = t.api_base ∧
    (restore_draft t d).step = t.step ∧
    (restore_draft t d).developer_mode = t.developer_mode ∧
    (restore_draft t d).requirements_last_fetched_at = t.requirements_last_fetched_at ∧
    (new_state t).project_name = t.project_name ∧
    (new_state t).api_base = t.api_base ∧
    (new_state t).step = t.step ∧
    (new_state t).developer_mode = t.developer_mode ∧
    (new_state t).requirements_last_fetched_at = t.requirements_last_fetched_at :=
  ⟨rfl, rfl, rfl, rfl, rfl, rfl, rfl, rfl, rfl, rfl, rfl⟩

/-! ### C2: the six checklist flags -/

/-- C2.  The sidebar checklist flags hold exactly under the stated
conditions: non-empty sources, knowledge base readiness or a stored index
result, a non-blank trimmed issue key, non-empty fetched requirements
(independent of the applied `product_pack` requirements), a non-empty
scenario list, and a positive total of test cases across the tree. -/
theorem checklist_flags_spec (s : WorkflowState) :
    (sources_ok s = true ↔ s.sources ≠ []) ∧
    (kb_ok s = true ↔ (s.kb_ready = true ∨ s.last_index_result ≠ [])) ∧
    (jira_ok s = true ↔ pyStrip s.jira_issue_key ≠ "") ∧
    (req_ok s = true ↔ s.fetched_requirements ≠ []) ∧
    (∀ pp : ProductPack, req_ok { s with product_pack := pp } = req_ok s) ∧
    (sc_ok s = true ↔ scenario_list s.scenario_pack ≠ []) ∧
    (tc_ok s = true ↔
      0 < ((scenario_list s.scenario_pack).map
            (fun sc => (sc.test_cases.getD []).length)).sum) := by
  refine ⟨?_, ?_, ?_, ?_, fun pp => rfl, ?_, ?_⟩
  · simp [sources_ok, List.length_pos]
  · simp [kb_ok, List.isEmpty_iff, or_comm]
  · simp [jira_ok]
  · simp [req_ok, List.length_pos]
  · simp [sc_ok, List.length_pos]
  · simp [tc_ok, total_testcases_eq_sum]

/-! ### C4: the test-case total -/

/-- C4.  `total_testcases` equals the sum of the per-scenario test-case
list lengths over the artifact tree, and a scenario whose `test_cases`
field is missing contributes zero instead of failing. -/
theorem total_testcases_spec (s : WorkflowState) :
    total_testcases s.scenario_pack =
      ((scenario_list s.scenario_pack).map
        (fun sc => (sc.test_cases.getD []).length)).sum ∧
    ∀ sc : Scenario, sc.test_cases = none →
      total_testcases { scenarios := some [sc] } = 0 := by
  refine ⟨total_testcases_eq_sum s.scenario_pack, fun sc h => ?_⟩
  simp [total_testcases, scenario_list, h]

/-- Witness for C4 at the demo state: the tree with 2, missing and 0
test cases totals 2, and the scenario with the missing field totals 0. -/
theorem total_testcases_spec_witness :
    total_testcases demo_state.scenario_pack = 2 ∧
    total_testcases { scenarios := some [demo_scenario2] } = 0 := by
  have h := total_testcases_spec demo_state
  exact ⟨h.1.trans (by decide), h.2 demo_scenario2 rfl⟩

/-! ### C3: the flat CSV export -/

/-- C3.  The flattened export emits exactly one row per
scenario-test-case pair in tree order (a scenario with no test cases
contributes none), its row count equals the test-case total, and every
column of every row is comma-free. -/
theorem flatten_for_export_spec (sp : ScenarioPack) :
    flatten_for_export sp =
      ((scenario_list sp).map
        (fun s => (s.test_cases.getD []).map (csv_row_of s))).flatten ∧
    (flatten_for_export sp).length = total_testcases sp ∧
    ∀ r, r ∈ flatten_for_export sp → rowCommaFree r := by
  have hflat := foldr_append_eq_flatten
    (fun s => (s.test_cases.getD []).map (csv_row_of s)) (scenario_list sp)
  refine ⟨hflat, ?_, ?_⟩
  · rw [flatten_for_export, hflat, List.length_flatten, total_testcases_eq_sum]
    simp [Function.comp_def]
  · intro r hr
    rw [flatten_for_export, hflat] at hr
    rcases List.mem_flatten.mp hr with ⟨block, hb, hrb⟩
    rcases List.mem_map.mp hb with ⟨sc, _, hsc⟩
    rcases List.mem_map.mp (hsc ▸ hrb) with ⟨tc, _, htc⟩
    exact htc ▸ rowCommaFree_csv_row_of sc tc

/-- Witness for C3 at the demo tree: two rows come out, matching the
test-case total, and the first row is comma-free. -/
theorem flatten_for_export_spec_witness :
    (flatten_for_export demo_pack).length = 2 ∧
    total_testcases demo_pack = 2 ∧
    rowCommaFree (csv_row_of demo_scenario1 demo_tc1) := by
  have h := flatten_for_export_spec demo_pack
  exact ⟨h.2.1.trans (by decide), by decide,
    h.2.2 (csv_row_of demo_scenario1 demo_tc1) (by decide)⟩

/-! ### C5: scenario search (corrected) -/

/-- C5 counterexample.  The source builds the search blob as
`title + " " + objective`, so a keyword spanning the boundary of the two
fields never matches, while the claim's separator-free concatenation
would match it: with title `"a"`, objective `"b"` and keyword `"ab"`, the
code returns no scenario but the claimed predicate returns the scenario. -/
theorem search_scenarios_claim_counterexample :
    search_scenarios cex_pack "ab" = [] ∧
    search_scenarios_as_claimed cex_pack "ab" = [cex_scenario] := by
  constructor <;> rfl

/-- C5 amended.  The search keeps exactly the scenarios whose lowered
`title`, a single space, and `objective` contain the lowered keyword,
preserving tree order, and the empty keyword keeps the whole list. -/
theorem search_scenarios_amended_spec (sp : ScenarioPack) (search : String) :
    search_scenarios sp search =
      (scenario_list sp).filter
        (fun s =>
          search == "" ||
            pyIn (pyLower search)
              (pyLower ((s.title.getD "") ++ " " ++ (s.objective.getD "")))) ∧
    search_scenarios sp "" = scenario_list sp := by
  constructor
  · rw [search_scenarios]
    apply List.filter_congr
    intro s _
    simp [scenario_blob, bne, Bool.not_and, Bool.not_not]
  · rw [search_scenarios]
    simp [show ("" != "") = false by decide]

/-! ### C6: the Create-scenarios gate -/

/-- C6.  `can_generate` holds exactly when the trimmed issue key is
non-blank or the applied requirement list is non-empty; in particular a
state with issue key `RFID-9` and zero applied requirements passes. -/
theorem can_generate_spec (s : WorkflowState) :
    (can_generate s = true ↔
      (pyStrip s.jira_issue_key ≠ "" ∨ s.product_pack.requirements.getD [] ≠ [])) ∧
    (s.jira_issue_key = "RFID-9" → requirements_count s.product_pack = 0 →
      can_generate s = true) := by
  constructor
  · simp [can_generate, requirements_count, List.length_pos]
  · intro h1 h2
    have hkey : (pyStrip "RFID-9" != "") = true := by decide
    simp [can_generate, h1, hkey]

/-- Witness for C6: the default state with only the issue key `RFID-9`
set, and no applied requirements, enables generation. -/
theorem can_generate_spec_witness : can_generate rfid_state = true :=
  (can_generate_spec rfid_state).2 rfl (by decide)

/-! ### C7: the test-case filters -/

/-- C7.  A test case passes the Step 5 filters exactly when the type
filter is `"All"` or matches its type, and the keyword is empty or a
case-insensitive substring of its title; the two filters compose as two
successive filters, i.e. with logical AND. -/
theorem filter_testcases_spec (tcs : List TestCase) (tc_type q : String) :
    (∀ tc, tc ∈ filter_testcases tcs tc_type q ↔
        tc ∈ tcs ∧ (tc_type = "All" ∨ tc.type = some tc_type) ∧
          (q = "" ∨ pyIn (pyLower q) (pyLower (tc.title.getD "")) = true)) ∧
    filter_testcases tcs "All" "" = tcs ∧
    filter_testcases tcs tc_type q =
      (tcs.filter (fun tc => !(tc_type != "All" && tc.type != some tc_type))).filter
        (fun tc => !(q != "" && !pyIn (pyLower q) (pyLower (tc.title.getD "")))) := by
  refine ⟨?_, ?_, ?_⟩
  · intro tc
    simp only [filter_testcases, List.mem_filter, Bool.and_eq_true, Bool.not_eq_true',
      Bool.and_eq_false_iff, bne_eq_false_iff_eq, Bool.not_eq_false', Bool.not_eq_true,
      bne_iff_ne, ne_eq]
  · simp [filter_testcases, show ("All" != "All") = false by decide,
      show ("" != "") = false by decide]
  · rw [filter_testcases, List.filter_filter]
    apply List.filter_congr
    intro tc _
    rw [Bool.and_comm]

/-- Witness for C7: filtering the demo pair by type `Negative` with an
empty keyword keeps exactly the negative test case. -/
theorem filter_testcases_spec_witness :
    filter_testcases [demo_tc1, demo_tc2] "Negative" "" = [demo_tc2] ∧
    demo_tc2 ∈ filter_testcases [demo_tc1, demo_tc2] "Negative" "" := by
  have h := filter_testcases_spec [demo_tc1, demo_tc2] "Negative" ""
  exact ⟨by decide, (h.1 demo_tc2).mpr (by decide)⟩

/-! ### C9: applying fetched requirements (corrected) -/

/-- C9 counterexample.  The Use-these-requirements handler performs no
validation: applying a list whose only record has no statement succeeds
and replaces `product_pack.requirements`, where the claim demands a
`ValidationError` that leaves the prior value in place. -/
theorem apply_requirements_counterexample :
    bad_requirement.statement = none ∧
    init_state.product_pack.requirements = some [] ∧
    (apply_requirements init_state [bad_requirement]).product_pack.requirements
        = some [bad_requirement] ∧
    (apply_requirements init_state [bad_requirement]).product_pack.requirements
        ≠ init_state.product_pack.requirements := by
  refine ⟨rfl, rfl, rfl, ?_⟩
  decide

/-- C9 amended.  `apply_requirements` replaces
`product_pack.requirements` with the given list unconditionally — no
validation, no failure path — and changes nothing else; the source button
applies exactly the fetched list. -/
theorem apply_requirements_amended_spec (s : WorkflowState) (reqs : List Requirement) :
    (apply_requirements s reqs).product_pack.requirements = some reqs ∧
    (apply_requirements s reqs).product_pack.product = s.product_pack.product ∧
    (apply_requirements s reqs).product_pack.business_rules = s.product_pack.business_rules ∧
    (apply_requirements s reqs).product_pack.output = s.product_pack.output ∧
    (apply_requirements s reqs).fetched_requirements = s.fetched_requirements ∧
    (apply_requirements s reqs).sources = s.sources ∧
    (apply_requirements s reqs).scenario_pack = s.scenario_pack ∧
    use_fetched_requirements s = apply_requirements s s.fetched_requirements :=
  ⟨rfl, rfl, rfl, rfl, rfl, rfl, rfl, rfl⟩
